import Mathlib

/-! # A shallow embedding of the `positive` crate

The crate (src/positive.rs, src/error.rs) wraps a `rust_decimal::Decimal` in a
newtype `Positive` that is supposed to keep its backing value non-negative.

The backing decimal is modelled as an exact rational number `val` together
with its `scale` (number of fractional digits; at most 28 in the library).
The 96-bit mantissa bound of the library appears as `Decimal.MAX`.
Arithmetic on in-range decimals is exact rational arithmetic; the rounding
the library applies to overflowing intermediate results is outside the
fragment exercised below.  A 64-bit float is modelled symbolically as NaN, a
signed infinity, or a finite value carried as its exact rational value
(every finite IEEE double is an exact rational); the binary rounding of a
decimal-to-float conversion is abstracted to the exact value, and the
library's decimal-to-float conversion always succeeds.  A Rust process abort
(`expect` on a failed conversion, an explicit abort in an operator) is
modelled as `Option.none`; fallible constructors return `Except`.
-/

namespace PositiveRs

/-- Truncation of a rational toward zero, the rounding used by Rust `as`
casts and by the integer conversions of `rust_decimal` (which truncate the
fractional part before the range check). -/
def ratTrunc (q : ℚ) : ℤ :=
  if 0 ≤ q then ⌊q⌋ else ⌈q⌉

/-- Model of the backing `rust_decimal::Decimal`: the exact rational value
plus the scale (fractional digit count) of the representation.  Equality and
order of the library type are numeric, that is, they compare `val` only. -/
structure Decimal where
  val : ℚ
  scale : ℕ
deriving DecidableEq

/-- Model of an IEEE 64-bit float: NaN, a signed infinity, or a finite value
with its exact rational magnitude. -/
inductive F64 where
  | nan
  | inf (negSign : Bool)
  | finite (q : ℚ)
deriving DecidableEq

/-- The largest finite 64-bit float, `f64::MAX = (2^53 - 1) * 2^971`. -/
def F64.MAX : F64 :=
  .finite ((2 ^ 53 - 1) * 2 ^ 971)

/-- Rust `f64::is_infinite`. -/
def F64.isInfinite : F64 → Bool
  | .inf _ => true
  | _ => false

/-- Rust `f64::is_sign_positive` (the NaN and negative-zero subtleties are
not exercised by the code paths modelled here). -/
def F64.isSignPositive : F64 → Bool
  | .nan => true
  | .inf n => !n
  | .finite q => decide (0 ≤ q)

/-- IEEE equality test `==` on floats: NaN compares unequal to everything,
finite values compare by value. -/
def F64.beq : F64 → F64 → Bool
  | .inf a, .inf b => a == b
  | .finite a, .finite b => decide (a = b)
  | _, _ => false

/-- IEEE comparison `value < 0.0`. -/
def F64.ltZero : F64 → Bool
  | .nan => false
  | .inf n => n
  | .finite q => decide (q < 0)

/-- Constant `Decimal::ZERO`. -/
def Decimal.ZERO : Decimal := ⟨0, 0⟩

/-- Constant `Decimal::ONE`. -/
def Decimal.ONE : Decimal := ⟨1, 0⟩

/-- Constant `Decimal::TWO`. -/
def Decimal.TWO : Decimal := ⟨2, 0⟩

/-- Constant `Decimal::TEN`. -/
def Decimal.TEN : Decimal := ⟨10, 0⟩

/-- Constant `Decimal::MAX`, mantissa `2^96 - 1` at scale 0. -/
def Decimal.MAX : Decimal := ⟨2 ^ 96 - 1, 0⟩

/-- Conversion `Decimal::from` of an integer (used for `i64`/`u64`/literal
integers): exact, scale 0. -/
def Decimal.fromInt (n : ℤ) : Decimal := ⟨(n : ℚ), 0⟩

/-- Library addition: exact on in-range operands; the result scale is the
larger operand scale. -/
def Decimal.add (a b : Decimal) : Decimal :=
  ⟨a.val + b.val, max a.scale b.scale⟩

/-- Library subtraction: exact on in-range operands; the result scale is the
larger operand scale. -/
def Decimal.sub (a b : Decimal) : Decimal :=
  ⟨a.val - b.val, max a.scale b.scale⟩

/-- Library multiplication: exact value (rounding of overlong results is
outside the fragment used here); scales add, capped at 28. -/
def Decimal.mul (a b : Decimal) : Decimal :=
  ⟨a.val * b.val, min (a.scale + b.scale) 28⟩

/-- Library division: the value is modelled exactly (the library rounds the
quotient to at most 28 fractional digits); the result scale is abstracted to
28 and is never inspected by a theorem below.  No claim divides by zero on
this path: the zero divisor is either guarded by the caller or produces a
process abort that no claim exercises. -/
def Decimal.div (a b : Decimal) : Decimal :=
  ⟨a.val / b.val, 28⟩

/-- Rust `%` on decimals: the truncated-division remainder
`a - b * trunc(a / b)`. -/
def Decimal.rem (a b : Decimal) : Decimal :=
  ⟨a.val - b.val * (ratTrunc (a.val / b.val) : ℚ), max a.scale b.scale⟩

/-- Library `Decimal::abs`. -/
def Decimal.abs (a : Decimal) : Decimal :=
  ⟨|a.val|, a.scale⟩

/-- Library `ToPrimitive::to_i64`: truncate the fractional part, then check
that the integer fits in a signed 64-bit range. -/
def Decimal.to_i64 (d : Decimal) : Option ℤ :=
  let t := ratTrunc d.val
  if -(2 ^ 63) ≤ t ∧ t ≤ 2 ^ 63 - 1 then some t else none

/-- Library `ToPrimitive::to_u64`: truncate the fractional part, then check
that the integer fits in an unsigned 64-bit range. -/
def Decimal.to_u64 (d : Decimal) : Option ℕ :=
  let t := ratTrunc d.val
  if 0 ≤ t ∧ t ≤ 2 ^ 64 - 1 then some t.toNat else none

/-- Library `ToPrimitive::to_usize` on a 64-bit target, identical in range
to the unsigned 64-bit conversion. -/
def Decimal.to_usize (d : Decimal) : Option ℕ :=
  Decimal.to_u64 d

/-- Library `ToPrimitive::to_f64`: succeeds for every decimal (every decimal
magnitude is far inside the double range); the binary rounding is abstracted
to the exact value. -/
def Decimal.to_f64 (d : Decimal) : Option F64 :=
  some (.finite d.val)

/-- Auxiliary rounding for `Decimal.from_f64`: choose the largest scale not
above the given bound whose mantissa fits in 96 bits and round there; at
scale 0 the guarded caller guarantees the fit. -/
def decFromRatAux (q : ℚ) : ℕ → Decimal
  | 0 => ⟨(round q : ℚ), 0⟩
  | s + 1 =>
    let m := round (q * 10 ^ (s + 1))
    if m.natAbs < 2 ^ 96 then ⟨(m : ℚ) / 10 ^ (s + 1), s + 1⟩
    else decFromRatAux q s

/-- Library `Decimal::from_f64`: fails on NaN, on either infinity, and on a
finite value whose magnitude exceeds `Decimal::MAX`; otherwise rounds the
value to a representable decimal (tiny magnitudes underflow to zero). -/
def Decimal.from_f64 : F64 → Option Decimal
  | .nan => none
  | .inf _ => none
  | .finite q =>
    if Decimal.MAX.val < |q| then none else some (decFromRatAux q 28)

/-- The error enumeration of src/error.rs.  Float payloads use the symbolic
float model. -/
inductive PositiveError where
  | InvalidValue (value : F64) (reason : String)
  | ArithmeticError (operation : String) (reason : String)
  | ConversionError (from_type : String) (to_type : String) (reason : String)
  | OutOfBounds (value : F64) (min : F64) (max : F64)
  | InvalidPrecision (precision : ℤ) (reason : String)
  | Other (msg : String)
deriving DecidableEq

/-- The wrapper type: `pub struct Positive(pub Decimal)`.  The field carries
no invariant, exactly as in the source, where the tuple field is public and
several operators store unchecked results into it. -/
structure Positive where
  p0 : Decimal
deriving DecidableEq

/-- Constant `Positive::ZERO`. -/
def Positive.ZERO : Positive := ⟨Decimal.ZERO⟩

/-- Constant `Positive::ONE`. -/
def Positive.ONE : Positive := ⟨Decimal.ONE⟩

/-- Constant `Positive::TWO`. -/
def Positive.TWO : Positive := ⟨Decimal.TWO⟩

/-- Constant `Positive::TEN`. -/
def Positive.TEN : Positive := ⟨Decimal.TEN⟩

/-- Constant `Positive::INFINITY = Positive(Decimal::MAX)`. -/
def Positive.INFINITY : Positive := ⟨Decimal.MAX⟩

/-- Constant `EPSILON = dec!(1e-16)`. -/
def EPSILON : Decimal := ⟨1 / 10 ^ 16, 16⟩

/-- Accessor `Positive::value`, the inner decimal. -/
def Positive.value (p : Positive) : Decimal := p.p0

/-- Validating constructor `Positive::new_decimal`. -/
def Positive.new_decimal (value : Decimal) : Except PositiveError Positive :=
  if 0 ≤ value.val then .ok ⟨value⟩
  else .error (.OutOfBounds (.finite value.val) (.finite 0) (.inf false))

/-- Validating constructor `Positive::new` from a 64-bit float. -/
def Positive.new (value : F64) : Except PositiveError Positive :=
  match Decimal.from_f64 value with
  | some v =>
    if 0 ≤ v.val then .ok ⟨v⟩
    else .error (.OutOfBounds (.finite v.val) (.finite 0) F64.MAX)
  | none => .error (.ConversionError "f64" "Positive" "failed to parse Decimal")

/-- Accessor `Positive::to_i64`; the `expect` abort on a failed conversion
is the `none` case. -/
def Positive.to_i64 (p : Positive) : Option ℤ :=
  p.p0.to_i64

/-- Accessor `Positive::to_i64_checked`. -/
def Positive.to_i64_checked (p : Positive) : Option ℤ :=
  p.p0.to_i64

/-- Accessor `Positive::to_u64`; the `expect` abort is the `none` case. -/
def Positive.to_u64 (p : Positive) : Option ℕ :=
  p.p0.to_u64

/-- Accessor `Positive::to_u64_checked`. -/
def Positive.to_u64_checked (p : Positive) : Option ℕ :=
  p.p0.to_u64

/-- Accessor `Positive::to_usize`; the `expect` abort is the `none` case. -/
def Positive.to_usize (p : Positive) : Option ℕ :=
  p.p0.to_usize

/-- Accessor `Positive::to_usize_checked`. -/
def Positive.to_usize_checked (p : Positive) : Option ℕ :=
  p.p0.to_usize

/-- Accessor `Positive::to_f64`; the `expect` abort is the `none` case. -/
def Positive.to_f64 (p : Positive) : Option F64 :=
  p.p0.to_f64

/-- Accessor `Positive::to_f64_checked`. -/
def Positive.to_f64_checked (p : Positive) : Option F64 :=
  p.p0.to_f64

/-- Accessor `Positive::to_f64_lossy`: `to_f64().unwrap_or(0.0)`. -/
def Positive.to_f64_lossy (p : Positive) : F64 :=
  (p.p0.to_f64).getD (.finite 0)

/-- Trait conversion `impl From<Positive> for u64`:
`pos_u64.0.to_u64().unwrap_or(0)`. -/
def u64FromPositive (p : Positive) : ℕ :=
  (p.p0.to_u64).getD 0

/-- Predicate `Positive::is_zero`. -/
def Positive.is_zero (p : Positive) : Bool :=
  decide (p.p0.val = 0)

/-- Method `Positive::sub_or_zero`: clamps at zero when the operand is at
least the receiver. -/
def Positive.sub_or_zero (p : Positive) (other : Decimal) : Positive :=
  if other.val < p.p0.val then ⟨p.p0.sub other⟩ else ⟨Decimal.ZERO⟩

/-- Method `Positive::sub_or_none`: `none` when the operand strictly exceeds
the receiver. -/
def Positive.sub_or_none (p : Positive) (other : Decimal) : Option Positive :=
  if other.val ≤ p.p0.val then some ⟨p.p0.sub other⟩ else none

/-- Method `Positive::checked_sub`, delegating to `new_decimal`. -/
def Positive.checked_sub (p rhs : Positive) : Except PositiveError Positive :=
  Positive.new_decimal (p.p0.sub rhs.p0)

/-- Method `Positive::saturating_sub`. -/
def Positive.saturating_sub (p rhs : Positive) : Positive :=
  if rhs.p0.val < p.p0.val then ⟨p.p0.sub rhs.p0⟩ else Positive.ZERO

/-- Method `Positive::checked_div`. -/
def Positive.checked_div (p rhs : Positive) : Except PositiveError Positive :=
  if rhs.is_zero then .error (.ArithmeticError "division" "division by zero")
  else .ok ⟨p.p0.div rhs.p0⟩

/-- Method `Positive::is_multiple_of`: false against zero, otherwise a
tolerance test of the decimal remainder against `EPSILON`. -/
def Positive.is_multiple_of (p : Positive) (other : Positive) : Bool :=
  if other.is_zero then false
  else decide (((p.p0.rem other.p0).abs).val < EPSILON.val)

/-- Operator `impl Add for Positive`: unchecked wrap of the decimal sum. -/
def Positive.add (a b : Positive) : Positive :=
  ⟨a.p0.add b.p0⟩

/-- Operator `impl Sub for Positive`: aborts (modelled `none`) when the
decimal difference is negative. -/
def Positive.sub (a b : Positive) : Option Positive :=
  let result := a.p0.sub b.p0
  if result.val < 0 then none else some ⟨result⟩

/-- Operator `impl Mul for Positive`: unchecked wrap of the decimal
product. -/
def Positive.mul (a b : Positive) : Positive :=
  ⟨a.p0.mul b.p0⟩

/-- Operator `impl Div for Positive`: unchecked wrap of the decimal
quotient. -/
def Positive.div (a b : Positive) : Positive :=
  ⟨a.p0.div b.p0⟩

/-- Operator `impl Add<Decimal> for Positive`: wraps the sum with no sign
re-check. -/
def Positive.addDecimal (a : Positive) (rhs : Decimal) : Positive :=
  ⟨a.p0.add rhs⟩

/-- Operator `impl Sub<Decimal> for Positive`: `new_decimal` plus `expect`,
so a would-be-negative difference aborts (modelled `none`). -/
def Positive.subDecimal (a : Positive) (rhs : Decimal) : Option Positive :=
  (Positive.new_decimal (a.p0.sub rhs)).toOption

/-- Operator `impl Mul<Decimal> for Positive`: wraps the product with no
sign re-check. -/
def Positive.mulDecimal (a : Positive) (rhs : Decimal) : Positive :=
  ⟨a.p0.mul rhs⟩

/-- Operator `impl Div<Decimal> for Positive`: wraps the quotient with no
sign re-check. -/
def Positive.divDecimal (a : Positive) (rhs : Decimal) : Positive :=
  ⟨a.p0.div rhs⟩

/-- Operator `impl AddAssign<Decimal> for Positive`: `self.0 += rhs`, no
sign re-check; modelled as the updated receiver. -/
def Positive.addAssignDecimal (a : Positive) (rhs : Decimal) : Positive :=
  ⟨a.p0.add rhs⟩

/-- Operator `impl MulAssign<Decimal> for Positive`: `self.0 *= rhs`, no
sign re-check; modelled as the updated receiver. -/
def Positive.mulAssignDecimal (a : Positive) (rhs : Decimal) : Positive :=
  ⟨a.p0.mul rhs⟩

/-- Derived `PartialEq` of the wrapper: numeric equality of the backing
decimals. -/
def Positive.eqPositive (a b : Positive) : Bool :=
  decide (a.p0.val = b.p0.val)

/-- Operator `impl PartialEq<Decimal> for Positive`:
`(self.0 - *other).abs() <= EPSILON * Decimal::from(100)`. -/
def Positive.eqDecimal (p : Positive) (other : Decimal) : Bool :=
  decide (((p.p0.sub other).abs).val ≤ (EPSILON.mul (Decimal.fromInt 100)).val)

/-- Operator `impl PartialEq<Positive> for Decimal`: exact numeric equality
`*self == other.0`. -/
def Decimal.eqPositive (d : Decimal) (other : Positive) : Bool :=
  decide (d.val = other.p0.val)

/-- The self-describing wire value handed to the serde visitor: an integer
literal, a floating literal, or a string literal. -/
inductive Literal where
  | int (n : ℤ)
  | float (x : F64)
  | str (s : String)
deriving DecidableEq

/-- A decode failure: a custom data error, or a wrapped constructor error
passed through `serde::de::Error::custom`. -/
inductive DeError where
  | custom (msg : String)
  | fromPositive (e : PositiveError)
deriving DecidableEq

/-- Visitor case `visit_str`: every string input is rejected. -/
def visit_str (_value : String) : Except DeError Positive :=
  .error (.custom "Invalid string. Expected a positive number.")

/-- Visitor case `visit_i64`. -/
def visit_i64 (value : ℤ) : Except DeError Positive :=
  if value < 0 then .error (.custom "Expected a non-negative integer")
  else (Positive.new_decimal (Decimal.fromInt value)).mapError .fromPositive

/-- Visitor case `visit_u64`. -/
def visit_u64 (value : ℕ) : Except DeError Positive :=
  (Positive.new_decimal (Decimal.fromInt value)).mapError .fromPositive

/-- Visitor case `visit_f64`: positive infinity and `f64::MAX` both decode
to `INFINITY`; otherwise convert to decimal, reject a negative value, and
revalidate. -/
def visit_f64 (value : F64) : Except DeError Positive :=
  if value.isInfinite && value.isSignPositive then .ok Positive.INFINITY
  else if F64.beq value F64.MAX then .ok Positive.INFINITY
  else
    match Decimal.from_f64 value with
    | none => .error (.custom "Failed to convert f64 to Decimal")
    | some decimal =>
      if value.ltZero then .error (.custom "Expected a non-negative float")
      else (Positive.new_decimal decimal).mapError .fromPositive

/-- Decoding: the self-describing deserializer dispatches an integer literal
to `visit_i64` when negative and to `visit_u64` otherwise, a floating
literal to `visit_f64`, and a string literal to `visit_str`. -/
def deserialize : Literal → Except DeError Positive
  | .int n => if n < 0 then visit_i64 n else visit_u64 n.toNat
  | .float x => visit_f64 x
  | .str s => visit_str s

/-- Encoding: `INFINITY` becomes the `f64::MAX` floating literal; a
zero-scale value becomes an integer literal through `to_i64`; every other
value becomes a floating literal through `to_f64`; a failed conversion is a
serialization error. -/
def serialize (p : Positive) : Except String Literal :=
  if p.p0.val = Decimal.MAX.val then .ok (.float F64.MAX)
  else if p.p0.scale = 0 then
    match p.p0.to_i64 with
    | some n => .ok (.int n)
    | none => .error "Failed to convert to i64"
  else
    match p.p0.to_f64 with
    | some x => .ok (.float x)
    | none => .error "Failed to convert to f64"

/-- Truncation toward zero agrees with the floor on non-negative input. -/
theorem ratTrunc_of_nonneg {q : ℚ} (h : 0 ≤ q) : ratTrunc q = ⌊q⌋ := by
  simp [ratTrunc, h]

/-- Comparison of an integer power of two against a floor transfers to the
rational being floored. -/
theorem le_floor_pow (v : ℚ) (n : ℕ) : (2 ^ n : ℤ) ≤ ⌊v⌋ ↔ (2 ^ n : ℚ) ≤ v := by
  rw [Int.le_floor]
  norm_cast

/-- C1: evaluation of the raw-`Decimal`-operand operators at concrete
inputs.  The by-value addition, multiplication and division operators and
both in-place assign operators store a negative decimal into the wrapper
without any re-check, so the claimed invariant re-check is absent there;
only the by-value subtraction operator aborts on a would-be-negative
result. -/
theorem c1_decimal_operand_ops_skip_recheck :
    (Positive.addDecimal ⟨⟨1, 0⟩⟩ ⟨-2, 0⟩).p0.val < 0 ∧
    (Positive.mulDecimal ⟨⟨1, 0⟩⟩ ⟨-1, 0⟩).p0.val < 0 ∧
    (Positive.divDecimal ⟨⟨1, 0⟩⟩ ⟨-1, 0⟩).p0.val < 0 ∧
    (Positive.addAssignDecimal ⟨⟨1, 0⟩⟩ ⟨-2, 0⟩).p0.val < 0 ∧
    (Positive.mulAssignDecimal ⟨⟨1, 0⟩⟩ ⟨-1, 0⟩).p0.val < 0 ∧
    Positive.subDecimal ⟨⟨1, 0⟩⟩ ⟨2, 0⟩ = none := by
  refine ⟨by norm_num [Positive.addDecimal, Decimal.add],
    by norm_num [Positive.mulDecimal, Decimal.mul],
    by norm_num [Positive.divDecimal, Decimal.div],
    by norm_num [Positive.addAssignDecimal, Decimal.add],
    by norm_num [Positive.mulAssignDecimal, Decimal.mul], ?_⟩
  norm_num [Positive.subDecimal, Positive.new_decimal, Decimal.sub, Except.toOption]

/-- C2 counterexample: `Positive(0) == Decimal(1e-15)` is true although the
backing values differ, while the mirrored comparison is false, so the
`Positive`-against-`Decimal` comparison is neither exact nor symmetric. -/
theorem c2_counterexample :
    Positive.eqDecimal ⟨⟨0, 0⟩⟩ ⟨1 / 10 ^ 15, 15⟩ = true ∧
    (Positive.mk ⟨0, 0⟩).p0.val ≠ (Decimal.mk (1 / 10 ^ 15) 15).val ∧
    Decimal.eqPositive ⟨1 / 10 ^ 15, 15⟩ ⟨⟨0, 0⟩⟩ = false := by
  refine ⟨?_, by norm_num, by norm_num [Decimal.eqPositive]⟩
  norm_num [Positive.eqDecimal, Decimal.sub, Decimal.abs, Decimal.mul, EPSILON,
    Decimal.fromInt]
  rw [abs_of_pos (by norm_num)]
  norm_num

/-- C2 (amended): equality of two `Positive` values and the
`Decimal == Positive` orientation are exact numeric equality of the backing
values, but the `Positive == Decimal` orientation applies an absolute
tolerance of `EPSILON * 100 = 1e-14`. -/
theorem c2_equality_semantics (a b : Positive) (d : Decimal) :
    (Positive.eqPositive a b = true ↔ a.p0.val = b.p0.val) ∧
    (Positive.eqDecimal a d = true ↔ |a.p0.val - d.val| ≤ 1 / 10 ^ 14) ∧
    (Decimal.eqPositive d a = true ↔ d.val = a.p0.val) := by
  refine ⟨by simp [Positive.eqPositive], ?_, by simp [Decimal.eqPositive]⟩
  norm_num [Positive.eqDecimal, Decimal.sub, Decimal.abs, Decimal.mul, EPSILON,
    Decimal.fromInt]

/-- C3 counterexample: with the operand equal to the receiver,
`sub_or_none` returns a value (wrapping zero) although the claim demands
`none` whenever the operand is greater than or equal to the receiver. -/
theorem c3_counterexample :
    Positive.sub_or_none ⟨⟨5, 0⟩⟩ ⟨5, 0⟩ = some ⟨⟨0, 0⟩⟩ := by
  norm_num [Positive.sub_or_none, Decimal.sub]

/-- C3 (amended): `sub_or_zero` clamps to zero when the operand is at least
the receiver and returns the exact difference otherwise; `sub_or_none`
returns `none` exactly when the operand strictly exceeds the receiver, and
otherwise (including equality) returns the exact difference. -/
theorem c3_sub_or_zero_none (p : Positive) (d : Decimal) :
    (Positive.sub_or_zero p d).p0.val = max (p.p0.val - d.val) 0 ∧
    (Positive.sub_or_none p d = none ↔ p.p0.val < d.val) ∧
    (d.val ≤ p.p0.val →
      (Positive.sub_or_none p d).map (fun x => x.p0.val) = some (p.p0.val - d.val)) := by
  refine ⟨?_, ?_, ?_⟩
  · unfold Positive.sub_or_zero
    split_ifs with hc
    · simp only [Decimal.sub]
      rw [max_eq_left (by linarith)]
    · simp only [Decimal.ZERO]
      rw [max_eq_right (by linarith [not_lt.mp hc])]
  · unfold Positive.sub_or_none
    split_ifs with hc
    · simp only [reduceCtorEq, false_iff, not_lt]
      exact hc
    · simpa using not_le.mp hc
  · intro h
    simp [Positive.sub_or_none, h, Decimal.sub]

/-- C3 witness: the amended theorem applied at receiver 5 and operand 3. -/
theorem c3_witness :
    (Positive.sub_or_none ⟨⟨5, 0⟩⟩ ⟨3, 0⟩).map (fun x => x.p0.val) = some 2 := by
  have h := (c3_sub_or_zero_none ⟨⟨5, 0⟩⟩ ⟨3, 0⟩).2.2 (by norm_num)
  norm_num at h
  convert h using 2
  norm_num

/-- C4 counterexample: the `From` conversion of `Positive` into `u64`
silently substitutes 0 exactly where the checked accessor reports failure,
and the aborting accessor succeeds (by truncation) on a fractional value
that exceeds the unsigned 64-bit maximum. -/
theorem c4_counterexample :
    u64FromPositive ⟨⟨2 ^ 64, 0⟩⟩ = 0 ∧
    Positive.to_u64_checked ⟨⟨2 ^ 64, 0⟩⟩ = none ∧
    Positive.to_u64 ⟨⟨(36893488147419103231 : ℚ) / 2, 1⟩⟩ = some (2 ^ 64 - 1) := by
  refine ⟨by norm_num [u64FromPositive, Decimal.to_u64, ratTrunc],
    by norm_num [Positive.to_u64_checked, Decimal.to_u64, ratTrunc], ?_⟩
  have h : (⌊(36893488147419103231 : ℚ) / 2⌋ : ℤ) = 18446744073709551615 := by
    norm_num
  norm_num [Positive.to_u64, Decimal.to_u64, ratTrunc, h]
  rfl

/-- C4 (amended): for a wrapper holding a non-negative value, each aborting
integer accessor fails exactly when the truncated value leaves the target
range (for a non-negative value, exactly when the value reaches `2^63`
resp. `2^64`), the checked accessor is the same conversion, the float
accessor is total with a lossy variant defaulting to zero, and the `From`
conversion into `u64` substitutes the default 0 exactly where the checked
conversion fails. -/
theorem c4_accessors (p : Positive) (h : 0 ≤ p.p0.val) :
    Positive.to_i64 p = Positive.to_i64_checked p ∧
    Positive.to_u64 p = Positive.to_u64_checked p ∧
    Positive.to_usize p = Positive.to_usize_checked p ∧
    Positive.to_f64 p = Positive.to_f64_checked p ∧
    (Positive.to_i64 p = none ↔ (2 ^ 63 : ℚ) ≤ p.p0.val) ∧
    (Positive.to_u64 p = none ↔ (2 ^ 64 : ℚ) ≤ p.p0.val) ∧
    (Positive.to_usize p = none ↔ (2 ^ 64 : ℚ) ≤ p.p0.val) ∧
    Positive.to_f64 p = some (.finite p.p0.val) ∧
    Positive.to_f64_lossy p = .finite p.p0.val ∧
    u64FromPositive p = (Positive.to_u64_checked p).getD 0 := by
  have hfl : ratTrunc p.p0.val = ⌊p.p0.val⌋ := ratTrunc_of_nonneg h
  have h0 : (0 : ℤ) ≤ ⌊p.p0.val⌋ := Int.floor_nonneg.mpr h
  have hi : Positive.to_i64 p = none ↔ (2 ^ 63 : ℚ) ≤ p.p0.val := by
    simp only [Positive.to_i64, Decimal.to_i64, hfl]
    rw [← le_floor_pow p.p0.val 63]
    split_ifs with hc
    · simp only [reduceCtorEq, false_iff, not_le]
      omega
    · simp only [true_iff]
      omega
  have hu : Positive.to_u64 p = none ↔ (2 ^ 64 : ℚ) ≤ p.p0.val := by
    simp only [Positive.to_u64, Decimal.to_u64, hfl]
    rw [← le_floor_pow p.p0.val 64]
    split_ifs with hc
    · simp only [reduceCtorEq, false_iff, not_le]
      omega
    · simp only [true_iff]
      omega
  exact ⟨rfl, rfl, rfl, rfl, hi, hu, hu, rfl, rfl, rfl⟩

/-- C4 witness: the amended theorem applied to the wrapper holding 5. -/
theorem c4_witness :
    Positive.to_u64 ⟨⟨5, 0⟩⟩ = none ↔ (2 ^ 64 : ℚ) ≤ 5 :=
  (c4_accessors ⟨⟨5, 0⟩⟩ (by norm_num)).2.2.2.2.2.1

/-- C5 counterexample: a failing checked subtraction reports the
`OutOfBounds` variant (coming from `new_decimal`), not the claimed
`ArithmeticError` variant. -/
theorem c5_counterexample :
    Positive.checked_sub ⟨⟨3, 0⟩⟩ ⟨⟨5, 0⟩⟩ =
      .error (.OutOfBounds (.finite (-2)) (.finite 0) (.inf false)) := by
  norm_num [Positive.checked_sub, Positive.new_decimal, Decimal.sub]

/-- C5 (amended): `checked_sub` fails exactly when the right operand
exceeds the left, but with the `OutOfBounds` error variant rather than
`ArithmeticError`, and otherwise returns the exact difference;
`checked_div` fails with a typed `ArithmeticError` exactly when the divisor
is zero, and for a positive divisor returns exactly the quotient. -/
theorem c5_checked_ops (a b : Positive) :
    (a.p0.val < b.p0.val →
      Positive.checked_sub a b =
        .error (.OutOfBounds (.finite (a.p0.val - b.p0.val)) (.finite 0) (.inf false))) ∧
    (b.p0.val ≤ a.p0.val →
      (Positive.checked_sub a b).map (fun x => x.p0.val) = .ok (a.p0.val - b.p0.val)) ∧
    (b.p0.val = 0 →
      Positive.checked_div a b = .error (.ArithmeticError "division" "division by zero")) ∧
    (0 < b.p0.val →
      (Positive.checked_div a b).map (fun x => x.p0.val) = .ok (a.p0.val / b.p0.val)) := by
  refine ⟨?_, ?_, ?_, ?_⟩
  · intro h
    simp [Positive.checked_sub, Positive.new_decimal, Decimal.sub, not_le.mpr (by linarith : a.p0.val - b.p0.val < 0)]
  · intro h
    simp [Positive.checked_sub, Positive.new_decimal, Decimal.sub, (by linarith : 0 ≤ a.p0.val - b.p0.val), Except.map]
  · intro h
    simp [Positive.checked_div, Positive.is_zero, h]
  · intro h
    simp [Positive.checked_div, Positive.is_zero, (by linarith : b.p0.val ≠ 0), Decimal.div, Except.map]

/-- C5 witness: the amended theorem applied at 1 minus 2 and at 6 divided
by 2. -/
theorem c5_witness :
    Positive.checked_sub ⟨⟨1, 0⟩⟩ ⟨⟨2, 0⟩⟩ =
      .error (.OutOfBounds (.finite (-1)) (.finite 0) (.inf false)) ∧
    (Positive.checked_div ⟨⟨6, 0⟩⟩ ⟨⟨2, 0⟩⟩).map (fun x => x.p0.val) = .ok 3 := by
  constructor
  · have h := (c5_checked_ops ⟨⟨1, 0⟩⟩ ⟨⟨2, 0⟩⟩).1 (by norm_num)
    norm_num at h
    exact h
  · have h := (c5_checked_ops ⟨⟨6, 0⟩⟩ ⟨⟨2, 0⟩⟩).2.2.2 (by norm_num)
    norm_num at h
    exact h

/-- C6: when the left operand is at least the right one, checked,
saturating and plain subtraction all succeed with the exact difference;
when the left operand is smaller, the checked form fails, the saturating
form returns `ZERO`, and the plain operator aborts. -/
theorem c6_subtraction_families (a b : Positive) :
    (b.p0.val ≤ a.p0.val →
      (Positive.checked_sub a b).map (fun x => x.p0.val) = .ok (a.p0.val - b.p0.val) ∧
      (Positive.saturating_sub a b).p0.val = a.p0.val - b.p0.val ∧
      (Positive.sub a b).map (fun x => x.p0.val) = some (a.p0.val - b.p0.val)) ∧
    (a.p0.val < b.p0.val →
      (∃ e, Positive.checked_sub a b = .error e) ∧
      Positive.saturating_sub a b = Positive.ZERO ∧
      Positive.sub a b = none) := by
  constructor
  · intro h
    refine ⟨?_, ?_, ?_⟩
    · simp [Positive.checked_sub, Positive.new_decimal, Decimal.sub, (by linarith : 0 ≤ a.p0.val - b.p0.val), Except.map]
    · unfold Positive.saturating_sub
      split_ifs with hc
      · simp [Decimal.sub]
      · have : a.p0.val = b.p0.val := le_antisymm (not_lt.mp hc) h
        simp [Positive.ZERO, Decimal.ZERO, this]
    · simp [Positive.sub, Decimal.sub, not_lt.mpr (by linarith : (0:ℚ) ≤ a.p0.val - b.p0.val)]
  · intro h
    refine ⟨?_, ?_, ?_⟩
    · exact ⟨.OutOfBounds (.finite (a.p0.val - b.p0.val)) (.finite 0) (.inf false),
        by simp [Positive.checked_sub, Positive.new_decimal, Decimal.sub, not_le.mpr (by linarith : a.p0.val - b.p0.val < 0)]⟩
    · simp [Positive.saturating_sub, not_lt.mpr (le_of_lt h)]
    · simp [Positive.sub, Decimal.sub, (by linarith : a.p0.val - b.p0.val < 0)]

/-- C6 witness: the theorem applied at 5 and 3 and at 3 and 5. -/
theorem c6_witness :
    (Positive.saturating_sub ⟨⟨5, 0⟩⟩ ⟨⟨3, 0⟩⟩).p0.val = 2 ∧
    Positive.saturating_sub ⟨⟨3, 0⟩⟩ ⟨⟨5, 0⟩⟩ = Positive.ZERO ∧
    Positive.sub ⟨⟨3, 0⟩⟩ ⟨⟨5, 0⟩⟩ = none := by
  refine ⟨?_, ((c6_subtraction_families ⟨⟨3, 0⟩⟩ ⟨⟨5, 0⟩⟩).2 (by norm_num)).2.1,
    ((c6_subtraction_families ⟨⟨3, 0⟩⟩ ⟨⟨5, 0⟩⟩).2 (by norm_num)).2.2⟩
  have h := ((c6_subtraction_families ⟨⟨5, 0⟩⟩ ⟨⟨3, 0⟩⟩).1 (by norm_num)).2.1
  norm_num at h
  exact h

/-- C7: the maximum finite floating literal and a true positive infinity
both decode to `INFINITY`, encoding `INFINITY` produces exactly the maximum
finite floating literal, and encode-then-decode is the identity on
`INFINITY`. -/
theorem c7_infinity_codec :
    deserialize (.float F64.MAX) = .ok Positive.INFINITY ∧
    deserialize (.float (.inf false)) = .ok Positive.INFINITY ∧
    serialize Positive.INFINITY = .ok (.float F64.MAX) ∧
    (serialize Positive.INFINITY).map deserialize = .ok (.ok Positive.INFINITY) := by
  have h1 : deserialize (.float F64.MAX) = .ok Positive.INFINITY := by
    norm_num [deserialize, visit_f64, F64.isInfinite, F64.beq, F64.MAX]
  have h2 : deserialize (.float (.inf false)) = .ok Positive.INFINITY := by
    norm_num [deserialize, visit_f64, F64.isInfinite, F64.isSignPositive]
  have h3 : serialize Positive.INFINITY = .ok (.float F64.MAX) := by
    norm_num [serialize, Positive.INFINITY, Decimal.MAX]
  refine ⟨h1, h2, h3, ?_⟩
  rw [h3]
  simpa [Except.map] using h1

/-- C8: decoding rejects every string literal regardless of content, every
negative integer literal, and every negative floating literal. -/
theorem c8_decode_rejections (s : String) (n : ℤ) (x : F64) :
    (∃ e, deserialize (.str s) = .error e) ∧
    (n < 0 → ∃ e, deserialize (.int n) = .error e) ∧
    (x.ltZero = true → ∃ e, deserialize (.float x) = .error e) := by
  refine ⟨⟨_, rfl⟩, ?_, ?_⟩
  · intro h
    exact ⟨.custom "Expected a non-negative integer",
      by simp [deserialize, visit_i64, h]⟩
  · intro h
    cases x with
    | nan => simp [F64.ltZero] at h
    | inf neg =>
      have hn : neg = true := by simpa [F64.ltZero] using h
      subst hn
      exact ⟨.custom "Failed to convert f64 to Decimal",
        by simp [deserialize, visit_f64, F64.isInfinite, F64.isSignPositive,
          F64.beq, F64.MAX, Decimal.from_f64]⟩
    | finite q =>
      have hq : q < 0 := by simpa [F64.ltZero] using h
      have hne : ¬ (q = (2 ^ 53 - 1) * 2 ^ 971) := by
        intro he
        rw [he] at hq
        norm_num at hq
      by_cases hover : Decimal.MAX.val < |q|
      · exact ⟨.custom "Failed to convert f64 to Decimal",
          by simp [deserialize, visit_f64, F64.isInfinite, F64.beq, F64.MAX, hne,
            Decimal.from_f64, hover]⟩
      · exact ⟨.custom "Expected a non-negative float",
          by simp [deserialize, visit_f64, F64.isInfinite, F64.beq, F64.MAX, hne,
            Decimal.from_f64, hover, F64.ltZero, hq]⟩

/-- C8 witness: the theorem applied to the string literal 42.5, the integer
literal minus 42, and the floating literal minus 42.5. -/
theorem c8_witness :
    (∃ e, deserialize (.str "42.5") = .error e) ∧
    (∃ e, deserialize (.int (-42)) = .error e) ∧
    (∃ e, deserialize (.float (.finite (-85 / 2))) = .error e) := by
  obtain ⟨h1, h2, h3⟩ := c8_decode_rejections "42.5" (-42) (.finite (-85 / 2))
  refine ⟨h1, h2 (by norm_num), h3 ?_⟩
  simp only [F64.ltZero, decide_eq_true_eq]
  norm_num

/-- C9: the validating float constructor fails with `ConversionError`
exactly when the decimal conversion fails, which happens precisely for NaN,
either infinity, or a finite value whose magnitude exceeds the decimal
maximum; it fails with `OutOfBounds` when the conversion succeeds with a
negative decimal; and it succeeds wrapping the converted decimal
otherwise. -/
theorem c9_new_classifies (x : F64) :
    (Decimal.from_f64 x = none ↔
      x = .nan ∨ (∃ b, x = .inf b) ∨ ∃ q, x = .finite q ∧ Decimal.MAX.val < |q|) ∧
    (Decimal.from_f64 x = none →
      Positive.new x = .error (.ConversionError "f64" "Positive" "failed to parse Decimal")) ∧
    (∀ d, Decimal.from_f64 x = some d → d.val < 0 →
      Positive.new x = .error (.OutOfBounds (.finite d.val) (.finite 0) F64.MAX)) ∧
    (∀ d, Decimal.from_f64 x = some d → 0 ≤ d.val → Positive.new x = .ok ⟨d⟩) := by
  refine ⟨?_, ?_, ?_, ?_⟩
  · cases x with
    | nan => simp [Decimal.from_f64]
    | inf b => simp [Decimal.from_f64]
    | finite q =>
      have hiff : Decimal.from_f64 (.finite q) = none ↔ Decimal.MAX.val < |q| := by
        simp only [Decimal.from_f64]
        split_ifs with hc <;> simp [hc]
      rw [hiff]
      simp
  · intro h
    simp [Positive.new, h]
  · intro d hd hneg
    simp [Positive.new, hd, not_le.mpr hneg]
  · intro d hd hpos
    simp [Positive.new, hd, hpos]

/-- C9 witness: the theorem applied to NaN, to minus one, and to one. -/
theorem c9_witness :
    Positive.new .nan =
      .error (.ConversionError "f64" "Positive" "failed to parse Decimal") ∧
    Positive.new (.finite (-1)) =
      .error (.OutOfBounds (.finite (-1)) (.finite 0) F64.MAX) ∧
    Positive.new (.finite 1) = .ok ⟨⟨1, 28⟩⟩ := by
  have hneg : Decimal.from_f64 (.finite (-1)) = some ⟨-1, 28⟩ := by
    norm_num [Decimal.from_f64, Decimal.MAX, decFromRatAux, round_eq]
  have hpos : Decimal.from_f64 (.finite 1) = some ⟨1, 28⟩ := by
    norm_num [Decimal.from_f64, Decimal.MAX, decFromRatAux, round_eq]
  exact ⟨(c9_new_classifies .nan).2.1 rfl,
    (c9_new_classifies (.finite (-1))).2.2.1 ⟨-1, 28⟩ hneg (by norm_num),
    (c9_new_classifies (.finite 1)).2.2.2 ⟨1, 28⟩ hpos (by norm_num)⟩

/-- C10: `is_multiple_of` is false against zero for every receiver, and
against a nonzero operand it is a tolerance test, true exactly when the
absolute decimal remainder is strictly below `1e-16`. -/
theorem c10_is_multiple_of_semantics (x b : Positive) :
    Positive.is_multiple_of x Positive.ZERO = false ∧
    (b.p0.val ≠ 0 →
      (Positive.is_multiple_of x b = true ↔
        |x.p0.val - b.p0.val * (ratTrunc (x.p0.val / b.p0.val) : ℚ)| < 1 / 10 ^ 16)) := by
  constructor
  · simp [Positive.is_multiple_of, Positive.is_zero, Positive.ZERO, Decimal.ZERO]
  · intro h
    simp [Positive.is_multiple_of, Positive.is_zero, h, Decimal.rem, Decimal.abs,
      EPSILON]

/-- C10 witness: the theorem applied at receiver 10 and operand 4. -/
theorem c10_witness :
    Positive.is_multiple_of ⟨⟨10, 0⟩⟩ ⟨⟨4, 0⟩⟩ = true ↔
      |(10 : ℚ) - 4 * (ratTrunc ((10 : ℚ) / 4) : ℚ)| < 1 / 10 ^ 16 :=
  (c10_is_multiple_of_semantics ⟨⟨10, 0⟩⟩ ⟨⟨4, 0⟩⟩).2 (by norm_num)

end PositiveRs
